import Mathlib

/-!
Verification of the sdget key/value lookup core.

The program resolves DNS TXT records, parses them as `key=value` pairs,
looks up a requested key with optional defaults, and renders the result
as plain lines or JSON. This development embeds the two Go source
variants' core functions (`lookUpValues` and `output` in `main.go` and
in the second variant) as pure Lean functions and proves the spec's
claims about them.

Modelling choices:
- Go strings are byte sequences; all the strings involved here are
  compared and split byte-wise on the ASCII byte `=`. For valid UTF-8
  input that is the same as character-wise treatment, so a Go string is
  modelled as `List Char` (`Str`).
- The output sink (`io.Writer`) is modelled as the list of characters
  the call writes; sink write failures (which Go surfaces as wrapped
  errors) cannot occur in this pure model, so the only `output` failure
  mode left is the cardinality pre-check.
- Go error values are formatted strings carrying the key and the count;
  they are modelled as inductive error values carrying the same data.
-/

/-- A Go string (a byte sequence, here of decoded characters). -/
abbrev Str := List Char

/-- The `options` struct of `main.go` (outputFormat, valueType, nameserver). -/
structure Options where
  outputFormat : String
  valueType : String
  nameserver : String
deriving DecidableEq, Repr

/-- The `options` struct of the second variant, which has no nameserver field. -/
structure Options2 where
  outputFormat : String
  valueType : String
deriving DecidableEq, Repr

/-- `makeDefaultOptions` of `main.go`: plain format, single value type. -/
def makeDefaultOptions : Options :=
  { outputFormat := "plain", valueType := "single", nameserver := "" }

/-- Models `strings.SplitN(record, "=", 2)`: `none` when the record has no
`=` (SplitN returns a single piece, so `len(pieces) > 1` fails), and
`some (before, after)` split at the first `=` otherwise. -/
def splitEq : Str → Option (Str × Str)
  | [] => none
  | c :: cs =>
    if c = '=' then some ([], cs)
    else
      match splitEq cs with
      | none => none
      | some kv => some (c :: kv.1, kv.2)

/-- The accumulator loop of `lookUpValues` (main.go lines 84-90): for each
record in order, split on the first `=`; when a pair results and its key
equals the requested key exactly, append the value. -/
def matchValues (key : Str) : List Str → List Str
  | [] => []
  | r :: rs =>
    match splitEq r with
    | some kv => if kv.1 = key then kv.2 :: matchValues key rs else matchValues key rs
    | none => matchValues key rs

/-- Lines 84-93 of `lookUpValues`: the accumulator, then
`if len(values) == 0 { values = defaultValues }`. -/
def effectiveValues (txtRecords : List Str) (key : Str) (defaultValues : List Str) : List Str :=
  let values := matchValues key txtRecords
  if values = [] then defaultValues else values

/-- Lookup failures of `lookUpValues`, carrying the data the Go error
messages format: `no values found for key %s, and no default provided`
and `%d values found for key %s, but only 1 was expected`. -/
inductive LookupError where
  | noValue (key : Str)
  | tooManyValues (count : Nat) (key : Str)
deriving DecidableEq, Repr

deriving instance DecidableEq for Except

/-- `lookUpValues` of `main.go` (lines 83-105). -/
def lookUpValues (options : Options) (txtRecords : List Str) (key : Str)
    (defaultValues : List Str) : Except LookupError (List Str) :=
  let values := effectiveValues txtRecords key defaultValues
  if options.valueType = "single" then
    if values.length = 0 then .error (.noValue key)
    else if values.length > 1 then .error (.tooManyValues values.length key)
    else .ok values
  else .ok values

/-- `lookUpValues` of the second variant (same body, its own options type). -/
def lookUpValues2 (options : Options2) (txtRecords : List Str) (key : Str)
    (defaultValues : List Str) : Except LookupError (List Str) :=
  let values := effectiveValues txtRecords key defaultValues
  if options.valueType = "single" then
    if values.length = 0 then .error (.noValue key)
    else if values.length > 1 then .error (.tooManyValues values.length key)
    else .ok values
  else .ok values

/-- The double-quote character, written via its code point. -/
def dquote : Char := Char.ofNat 34

/-- The backslash character. -/
def bslash : Char := Char.ofNat 92

/-- Lower-case hexadecimal digit, as Go's JSON encoder emits. -/
def hexDigit (n : Nat) : Char :=
  if n < 10 then Char.ofNat (48 + n) else Char.ofNat (87 + n)

/-- Four-digit hexadecimal rendering used in `\uXXXX` escapes. -/
def hex4 (n : Nat) : Str :=
  [hexDigit (n / 4096 % 16), hexDigit (n / 256 % 16), hexDigit (n / 16 % 16), hexDigit (n % 16)]

/-- Go `encoding/json` string escaping with `SetEscapeHTML(false)`: only
the quote, the backslash, control characters and U+2028/U+2029 are
escaped; `<`, `>`, `&` and everything else pass through unchanged. -/
def jsonEscapeChar (c : Char) : Str :=
  if c = dquote then [bslash, dquote]
  else if c = bslash then [bslash, bslash]
  else if c = '\n' then [bslash, 'n']
  else if c = '\r' then [bslash, 'r']
  else if c = '\t' then [bslash, 't']
  else if c.toNat < 32 then bslash :: 'u' :: hex4 c.toNat
  else if c.toNat = 8232 ∨ c.toNat = 8233 then bslash :: 'u' :: hex4 c.toNat
  else [c]

/-- JSON encoding of one string value (quotes plus escaped content). -/
def jsonEncodeString (s : Str) : Str :=
  dquote :: (s.map jsonEscapeChar).flatten ++ [dquote]

/-- JSON encoding of a `[]string` value as an array of strings. -/
def jsonEncodeList (vs : List Str) : Str :=
  '[' :: List.intercalate [','] (vs.map jsonEncodeString) ++ [']']

/-- The `plain` rendering loop of `output`: `fmt.Fprintln(sink, record)`
for each value in order, i.e. each value followed by a newline. -/
def plainLines : List Str → Str
  | [] => []
  | v :: vs => (v ++ ['\n']) ++ plainLines vs

/-- The only failure `output` can produce in this pure-sink model: the
cardinality pre-check error `expected 1 value but got %d (%v)`. -/
inductive OutputError where
  | cardinality (count : Nat) (values : List Str)
deriving DecidableEq, Repr

/-- Result of one `output` call: the characters written to the sink by
this call, and the returned error if any. -/
structure OutResult where
  sink : Str
  err : Option OutputError
deriving DecidableEq, Repr

/-- `output` of `main.go` (lines 55-81): cardinality pre-check first (before
any write), then a switch on the format with the `json` case before the
`plain` case; `json.Encoder.Encode` writes the encoding followed by a
newline; an unmatched format writes nothing and succeeds. -/
def output (options : Options) (values : List Str) : OutResult :=
  if options.valueType = "single" ∧ values.length ≠ 1 then
    { sink := [], err := some (.cardinality values.length values) }
  else if options.outputFormat = "json" then
    if options.valueType = "single" then
      { sink := jsonEncodeString (values.headD []) ++ ['\n'], err := none }
    else if options.valueType = "list" then
      { sink := jsonEncodeList values ++ ['\n'], err := none }
    else { sink := [], err := none }
  else if options.outputFormat = "plain" then
    { sink := plainLines values, err := none }
  else { sink := [], err := none }

/-- `output` of the second variant (lines 27-53): identical except that its
switch lists the `plain` case before the `json` case. -/
def output2 (options : Options2) (values : List Str) : OutResult :=
  if options.valueType = "single" ∧ values.length ≠ 1 then
    { sink := [], err := some (.cardinality values.length values) }
  else if options.outputFormat = "plain" then
    { sink := plainLines values, err := none }
  else if options.outputFormat = "json" then
    if options.valueType = "single" then
      { sink := jsonEncodeString (values.headD []) ++ ['\n'], err := none }
    else if options.valueType = "list" then
      { sink := jsonEncodeList values ++ ['\n'], err := none }
    else { sink := [], err := none }
  else { sink := [], err := none }

/-- C3: a raw record without `=` parses to no pair and is silently skipped;
a record whose first `=` follows prefix `k` (so `k` is `=`-free) parses to
the pair `(k, v)` where `v` is the whole remainder, unconstrained: it may
be empty and may contain further `=` characters. -/
theorem splitEq_first_equals (s k v : Str) (hk : '=' ∉ k) :
    ('=' ∉ s → splitEq s = none) ∧ splitEq (k ++ '=' :: v) = some (k, v) := by
  constructor
  · induction s with
    | nil => intro _; rfl
    | cons c cs ih =>
      intro hs
      have hc : c ≠ '=' := fun h => hs (h ▸ List.mem_cons_self c cs)
      have hcs : '=' ∉ cs := fun h => hs (List.mem_cons_of_mem c h)
      simp [splitEq, hc, ih hcs]
  · induction k with
    | nil => simp [splitEq]
    | cons c cs ih =>
      have hc : c ≠ '=' := fun h => hk (h ▸ List.mem_cons_self c cs)
      have hcs : '=' ∉ cs := fun h => hk (List.mem_cons_of_mem c h)
      simp [splitEq, hc, ih hcs]

/-- C3 witness: a record without `=` is skipped; `a==b` splits at the first
`=` into key `a` and value `=b`; `k=` yields the empty value. -/
theorem splitEq_first_equals_witness :
    splitEq "abc".toList = none ∧
    splitEq "a==b".toList = some ("a".toList, "=b".toList) ∧
    splitEq "k=".toList = some ("k".toList, []) := by
  refine ⟨(splitEq_first_equals "abc".toList [] [] (by decide)).1 (by decide), ?_, ?_⟩
  · exact (splitEq_first_equals "a".toList "a".toList "=b".toList (by decide)).2
  · exact (splitEq_first_equals "k".toList "k".toList [] (by decide)).2

/-- C4: the pre-default accumulator is exactly the in-order sequence of
parsed values of the records whose parsed key equals the requested key
(an independent parse-all-filter-project characterization), and matching
is byte-exact: key `K` matches neither a record keyed `K ` (trailing
space) nor one keyed `k`, while `K=z` still matches. -/
theorem matchValues_characterization :
    (∀ (records : List Str) (key : Str),
      matchValues key records =
        (((records.filterMap splitEq).filter (fun p => p.1 == key)).map Prod.snd)) ∧
    matchValues "K".toList ["K =x".toList, "k=y".toList, "K=z".toList] = ["z".toList] := by
  constructor
  · intro records key
    induction records with
    | nil => rfl
    | cons r rs ih =>
      cases h : splitEq r with
      | none => simp [matchValues, h, ih]
      | some kv =>
        by_cases hk : kv.1 = key
        · simp [matchValues, h, hk, ih]
        · simp [matchValues, h, hk, ih]
  · decide

/-- C2: default substitution is all-or-nothing: with zero matching records
the pre-cardinality result is the default set exactly as supplied, and
with at least one matching record it is exactly the matched values, so
no element of it is taken from the defaults. -/
theorem effectiveValues_all_or_nothing (records : List Str) (key : Str) (defaults : List Str) :
    (matchValues key records = [] → effectiveValues records key defaults = defaults) ∧
    (matchValues key records ≠ [] → effectiveValues records key defaults = matchValues key records) := by
  constructor
  · intro h
    simp [effectiveValues, h]
  · intro h
    simp [effectiveValues, h]

/-- C2 witness: with no matching record the defaults pass through in
order; with one matching record the defaults are ignored. -/
theorem effectiveValues_all_or_nothing_witness :
    effectiveValues [] "k".toList ["d1".toList, "d2".toList] = ["d1".toList, "d2".toList] ∧
    effectiveValues ["k=v".toList] "k".toList ["d1".toList] = ["v".toList] := by
  constructor
  · exact (effectiveValues_all_or_nothing [] "k".toList ["d1".toList, "d2".toList]).1 (by decide)
  · exact ((effectiveValues_all_or_nothing ["k=v".toList] "k".toList ["d1".toList]).2
      (by decide)).trans (by decide)

/-- C1: in single mode the lookup is decided by the post-default
accumulator: exactly one entry succeeds with that value, zero entries
fails with the no-value error naming the key, more than one fails with
the too-many-values error reporting the actual count and the key; in
particular zero matches with two or more defaults fails the lookup with
the count of the defaults. -/
theorem lookUpValues_single_cardinality (opts : Options) (records : List Str) (key : Str)
    (defaults : List Str) (h : opts.valueType = "single") :
    (∀ v, effectiveValues records key defaults = [v] →
      lookUpValues opts records key defaults = .ok [v]) ∧
    (effectiveValues records key defaults = [] →
      lookUpValues opts records key defaults = .error (.noValue key)) ∧
    (1 < (effectiveValues records key defaults).length →
      lookUpValues opts records key defaults =
        .error (.tooManyValues (effectiveValues records key defaults).length key)) ∧
    (matchValues key records = [] → 2 ≤ defaults.length →
      lookUpValues opts records key defaults = .error (.tooManyValues defaults.length key)) := by
  refine ⟨?_, ?_, ?_, ?_⟩
  · intro v hv
    simp [lookUpValues, h, hv]
  · intro hv
    simp [lookUpValues, h, hv]
  · intro hv
    have h0 : (effectiveValues records key defaults).length ≠ 0 := by omega
    simp [lookUpValues, h, h0, hv]
  · intro hm hd
    have he : effectiveValues records key defaults = defaults := by
      simp [effectiveValues, hm]
    have h0 : defaults.length ≠ 0 := by omega
    have h1 : 1 < defaults.length := by omega
    simp [lookUpValues, h, he, h0, h1]

/-- C1 witness: one match succeeds with it; zero matches and no default
fails with no-value; two matches fail with count 2; zero matches with two
defaults fail with count 2. -/
theorem lookUpValues_single_cardinality_witness :
    lookUpValues makeDefaultOptions ["k=v".toList] "k".toList [] = .ok ["v".toList] ∧
    lookUpValues makeDefaultOptions [] "k".toList [] = .error (.noValue "k".toList) ∧
    lookUpValues makeDefaultOptions ["k=1".toList, "k=2".toList] "k".toList [] =
      .error (.tooManyValues 2 "k".toList) ∧
    lookUpValues makeDefaultOptions [] "k".toList ["a".toList, "b".toList] =
      .error (.tooManyValues 2 "k".toList) := by
  refine ⟨?_, ?_, ?_, ?_⟩
  · exact (lookUpValues_single_cardinality makeDefaultOptions ["k=v".toList] "k".toList []
      rfl).1 "v".toList (by decide)
  · exact (lookUpValues_single_cardinality makeDefaultOptions [] "k".toList [] rfl).2.1
      (by decide)
  · exact ((lookUpValues_single_cardinality makeDefaultOptions ["k=1".toList, "k=2".toList]
      "k".toList [] rfl).2.2.1 (by decide)).trans (by decide)
  · exact (lookUpValues_single_cardinality makeDefaultOptions [] "k".toList
      ["a".toList, "b".toList] rfl).2.2.2 (by decide) (by decide)

/-- C5: in list mode the lookup never fails: it returns the post-default
accumulator unconditionally, including when it is empty. -/
theorem lookUpValues_list_never_fails (opts : Options) (records : List Str) (key : Str)
    (defaults : List Str) (h : opts.valueType = "list") :
    lookUpValues opts records key defaults = .ok (effectiveValues records key defaults) := by
  simp [lookUpValues, h]

/-- C5 witness: list mode succeeds on zero, one, and many matches. -/
theorem lookUpValues_list_never_fails_witness :
    lookUpValues { makeDefaultOptions with valueType := "list" } [] "k".toList [] = .ok [] ∧
    lookUpValues { makeDefaultOptions with valueType := "list" }
      ["k=1".toList, "k=2".toList] "k".toList [] = .ok ["1".toList, "2".toList] := by
  constructor
  · exact (lookUpValues_list_never_fails _ [] "k".toList [] rfl).trans (by decide)
  · exact (lookUpValues_list_never_fails _ ["k=1".toList, "k=2".toList] "k".toList []
      rfl).trans (by decide)

/-- The `plain` loop writes exactly each value followed by a newline, in
sequence order (loop form equals the map-and-concatenate form). -/
theorem plainLines_eq_flatten (values : List Str) :
    plainLines values = (values.map (fun v => v ++ ['\n'])).flatten := by
  induction values with
  | nil => rfl
  | cons v vs ih => simp [plainLines, ih]

/-- C6: whenever the value type is single and the value set does not have
exactly one element, `output` fails with the cardinality error before any
write: the sink receives no bytes, whatever the output format is. -/
theorem output_single_precheck_no_write (opts : Options) (values : List Str)
    (h : opts.valueType = "single") (hlen : values.length ≠ 1) :
    output opts values = { sink := [], err := some (.cardinality values.length values) } := by
  simp [output, h, hlen]

/-- C6 witness: single mode with zero values fails and writes nothing,
here under the json format. -/
theorem output_single_precheck_no_write_witness :
    output { makeDefaultOptions with outputFormat := "json" } [] =
      { sink := [], err := some (.cardinality 0 []) } :=
  (output_single_precheck_no_write _ [] rfl (by decide)).trans (by decide)

/-- C8: in plain format, when the single-mode pre-check passes, `output`
writes each value as its own newline-terminated line in order, with no
quoting or escaping; and for records `[k=]` with key `k` in single mode
the pipeline yields the empty-string value and the output is exactly one
empty line. -/
theorem output_plain_lines (opts : Options) (values : List Str)
    (h1 : opts.outputFormat = "plain")
    (h2 : ¬(opts.valueType = "single" ∧ values.length ≠ 1)) :
    output opts values = { sink := (values.map (fun v => v ++ ['\n'])).flatten, err := none } ∧
    lookUpValues makeDefaultOptions ["k=".toList] "k".toList [] = .ok [[]] ∧
    output makeDefaultOptions [[]] = { sink := ['\n'], err := none } := by
  refine ⟨?_, by decide, by decide⟩
  simp [output, h1, h2, plainLines_eq_flatten]

/-- C8 witness: plain list output of two values is the two lines in order. -/
theorem output_plain_lines_witness :
    output { makeDefaultOptions with valueType := "list" }
      ["a".toList, "b".toList] = { sink := "a\nb\n".toList, err := none } :=
  ((output_plain_lines { makeDefaultOptions with valueType := "list" }
    ["a".toList, "b".toList] rfl (by decide)).1).trans (by decide)

/-- C7 counterexample: on Scenario B's records and key the lookup yields
`[item1, item2]`, but the bytes `output` writes in json list mode are not
exactly `["item1","item2"]`: the encoder appends a newline. -/
theorem output_json_list_counterexample :
    lookUpValues { makeDefaultOptions with outputFormat := "json", valueType := "list" }
      ["foo=bar".toList, "key=value".toList, "things=item1".toList, "things=item2".toList]
      "things".toList [] = .ok ["item1".toList, "item2".toList] ∧
    (output { makeDefaultOptions with outputFormat := "json", valueType := "list" }
      ["item1".toList, "item2".toList]).sink ≠ "[\"item1\",\"item2\"]".toList := by
  constructor
  · decide
  · decide

/-- C7 (amended): in json list mode `output` writes the value set as a JSON
array of strings followed by the encoder's terminating newline, with
HTML-escaping disabled, so `<`, `&`, `>` pass through unescaped. -/
theorem output_json_list_array (opts : Options) (values : List Str)
    (h1 : opts.outputFormat = "json") (h2 : opts.valueType = "list") :
    output opts values = { sink := jsonEncodeList values ++ ['\n'], err := none } ∧
    jsonEncodeString "a<b&c>d".toList = dquote :: "a<b&c>d".toList ++ [dquote] := by
  refine ⟨?_, by decide⟩
  simp [output, h1, h2]

/-- C7 witness: Scenario B writes exactly `["item1","item2"]` followed by
one newline. -/
theorem output_json_list_array_witness :
    output { makeDefaultOptions with outputFormat := "json", valueType := "list" }
      ["item1".toList, "item2".toList] =
      { sink := "[\"item1\",\"item2\"]".toList ++ ['\n'], err := none } :=
  ((output_json_list_array _ _ rfl rfl).1).trans (by decide)

/-- C9: the two source variants' cores are extensionally equal: on every
options value (the second variant's options lack only the nameserver
field, which neither core reads), record list, key, default set and value
set, the two `lookUpValues` return the same result and the two `output`
functions write the same sink bytes with the same outcome. -/
theorem variants_extensionally_equal (fmt vt ns : String) (records : List Str) (key : Str)
    (defaults values : List Str) :
    lookUpValues ⟨fmt, vt, ns⟩ records key defaults =
      lookUpValues2 ⟨fmt, vt⟩ records key defaults ∧
    output ⟨fmt, vt, ns⟩ values = output2 ⟨fmt, vt⟩ values := by
  constructor
  · rfl
  · by_cases hj : fmt = "json"
    · by_cases hp : fmt = "plain"
      · exact absurd (hj.symm.trans hp) (by decide)
      · simp [output, output2, hj, hp]
    · simp [output, output2, hj]

/-- C10: when the single-mode pre-check passes and the output format is
neither json nor plain (such as the zero format the main variant's CLI
accepts), `output` writes nothing to the sink and succeeds. -/
theorem output_other_format_silent (opts : Options) (values : List Str)
    (h1 : opts.outputFormat ≠ "json") (h2 : opts.outputFormat ≠ "plain")
    (h3 : ¬(opts.valueType = "single" ∧ values.length ≠ 1)) :
    output opts values = { sink := [], err := none } := by
  simp [output, h1, h2, h3]

/-- C10 witness: zero format in list mode writes nothing and succeeds. -/
theorem output_other_format_silent_witness :
    output { outputFormat := "zero", valueType := "list", nameserver := "" }
      ["a".toList] = { sink := [], err := none } :=
  output_other_format_silent _ ["a".toList] (by decide) (by decide) (by decide)
